import Mathlib

/-!
Verification of the payment reconciliation subsystem of the love-app backend
(src/controllers/paymentController.js, src/services/mercadoPagoService.js,
src/services/paypalService.js, src/models/User.js).

The JavaScript code is embedded shallowly:

* Dynamic JS values that flow through the identity-comparison logic are
  modelled by `JsVal` (undefined / string / number) together with strict
  equality `===` (`jsEq`).  This keeps faithful the fact that MercadoPago
  payment ids are numbers while the dedup key is a string.
* Provider HTTP calls are modelled by oracle environments (functions from
  request data to responses); thrown JS exceptions become `Except` values.
  Every provider call made by a code path is recorded in a trace so that
  "no capture request was issued" is a provable statement.
* Fields that the payment core only copies into the audit record and never
  reads again (amounts, dates, payer info) are carried as raw provider
  values; the `parseFloat` / `new Date` coercions applied to them in
  `formatPaymentData` are not interpreted (no logic depends on them).
* The Mongoose user document is modelled by `UserRec`; `user.save()` is a
  store update.  The `email` field (used only for logging) is omitted.
-/

/-- A dynamic JS value as used in the payment-identity comparisons. -/
inductive JsVal where
  | undef
  | str (s : String)
  | num (n : Nat)
deriving DecidableEq, Repr

/-- JS strict equality `===` restricted to the values that occur here:
no coercion across types, `undefined === undefined` is `true`. -/
def jsEq : JsVal → JsVal → Bool
  | .undef, .undef => true
  | .str a, .str b => a == b
  | .num a, .num b => a == b
  | _, _ => false

/-- JS truthiness of the values above (`undefined`, `""` and `0` are falsy). -/
def jsTruthy : JsVal → Bool
  | .undef => false
  | .str s => !s.isEmpty
  | .num n => n != 0

/-- JS truthiness of a possibly-undefined string. -/
def optTruthy : Option String → Bool
  | some s => !s.isEmpty
  | none => false

/-- JS `a || b` for a possibly-undefined string `a` and a string default. -/
def jsOrElse : Option String → String → String
  | some s, d => if s.isEmpty then d else s
  | none, d => d

/-- JS `a || b` where both operands are possibly-undefined strings. -/
def jsOrOpt : Option String → Option String → Option String
  | some s, b => if s.isEmpty then b else some s
  | none, b => b

/-- JS `a || b` on dynamic values. -/
def jsOrV (a b : JsVal) : JsVal :=
  if jsTruthy a then a else b

def sApproved : String := "approved"
def sAccredited : String := "accredited"
def sCOMPLETED : String := "COMPLETED"
def sAPPROVED : String := "APPROVED"
def sSUCCESS : String := "SUCCESS"
def sPayment : String := "payment"
def sPaymentCreated : String := "payment.created"
def sPaymentUpdated : String := "payment.updated"
def sPaypal : String := "paypal"
def sMercadopago : String := "mercadopago"
def sCaptureCompleted : String := "PAYMENT.CAPTURE.COMPLETED"
def sOrderApproved : String := "CHECKOUT.ORDER.APPROVED"

/-- A MercadoPago payment object as returned by `this.payment.get`:
the fields the service reads.  `id` is a JS number. -/
structure MPPaymentInfo where
  id : Nat
  status : Option String
  status_detail : Option String
  external_reference : Option String
  transaction_amount : JsVal
  currency_id : Option String
  payment_method_id : Option String
  payment_type_id : Option String
  date_created : Option String
deriving DecidableEq, Repr

/-- mercadoPagoService.isPaymentApproved: `status === 'approved' &&
status_detail === 'accredited'`. -/
def isPaymentApproved (paymentInfo : MPPaymentInfo) : Bool :=
  paymentInfo.status == some sApproved && paymentInfo.status_detail == some sAccredited

/-- A capture record inside a PayPal order (fields read by the service). -/
structure PPCapture where
  id : Option String
  status : Option String
  amountValue : Option String
  amountCurrency : Option String
  create_time : Option String
deriving DecidableEq, Repr

/-- The `payments` object of a purchase unit. -/
structure PPPayments where
  captures : List PPCapture
deriving DecidableEq, Repr

/-- A purchase unit of a PayPal order. -/
structure PPPurchaseUnit where
  custom_id : Option String
  payments : Option PPPayments
deriving DecidableEq, Repr

/-- The `payer` object of a PayPal order. -/
structure PPPayer where
  email_address : Option String
  given_name : Option String
  payer_id : Option String
deriving DecidableEq, Repr

/-- A PayPal order-details object (fields read by the service). -/
structure PPOrderDetails where
  id : String
  status : Option String
  purchase_units : List PPPurchaseUnit
  payer : Option PPPayer
  create_time : Option String
deriving DecidableEq, Repr

/-- The optional chain `purchase_units?.[0]?.payments?.captures?.[0]`. -/
def firstCapture (o : PPOrderDetails) : Option PPCapture :=
  ((o.purchase_units.head?).bind (fun u => u.payments)).bind (fun ps => ps.captures.head?)

/-- paypalService.isPaymentCompleted: `status === 'COMPLETED' &&
purchase_units?.[0]?.payments?.captures?.[0]?.status === 'COMPLETED'`. -/
def isPaymentCompleted (orderDetails : PPOrderDetails) : Bool :=
  orderDetails.status == some sCOMPLETED &&
    ((firstCapture orderDetails).bind (fun c => c.status)) == some sCOMPLETED

/-- The `custom_id` echoed in the first purchase unit:
`purchase_units?.[0]?.custom_id`. -/
def orderCustomId (o : PPOrderDetails) : Option String :=
  (o.purchase_units.head?).bind (fun u => u.custom_id)

/-- One entry of `user.payments` (union of the fields written by the two
`formatPaymentData` functions; identity fields are dynamic JS values). -/
structure PaymentEntry where
  paymentId : JsVal
  mercadoPagoId : JsVal
  paypalOrderId : JsVal
  provider : Option String
  amount : JsVal
  currency : Option String
  status : Option String
  statusDetail : Option String
  paymentMethod : Option String
  paymentType : Option String
  dateRaw : Option String
  payerEmail : Option String
  payerName : Option String
  payerId : Option String
deriving DecidableEq, Repr

/-- mercadoPagoService.formatPaymentData.  Note `paymentId` keeps the raw
numeric id while `mercadoPagoId` is its string form (`id.toString()`). -/
def mpFormatPaymentData (m : MPPaymentInfo) : PaymentEntry where
  paymentId := .num m.id
  mercadoPagoId := .str (toString m.id)
  paypalOrderId := .undef
  provider := none
  amount := m.transaction_amount
  currency := m.currency_id
  status := m.status
  statusDetail := m.status_detail
  paymentMethod := m.payment_method_id
  paymentType := m.payment_type_id
  dateRaw := m.date_created
  payerEmail := none
  payerName := none
  payerId := none

/-- paypalService.formatPaymentData.  The `parseFloat` on the amount and the
`new Date` on the timestamp are kept as the raw operand (`amount`,
`dateRaw`); nothing in the payment core reads them back. -/
def ppFormatPaymentData (o : PPOrderDetails) : PaymentEntry where
  paymentId := .str (jsOrElse ((firstCapture o).bind (fun c => c.id)) o.id)
  mercadoPagoId := .undef
  paypalOrderId := .str o.id
  provider := none
  amount := .str (jsOrElse ((firstCapture o).bind (fun c => c.amountValue)) ("0"))
  currency := some (jsOrElse ((firstCapture o).bind (fun c => c.amountCurrency)) ("USD"))
  status := o.status.map (fun s => s.toLower)
  statusDetail := some (jsOrElse ((firstCapture o).bind (fun c => c.status)) ("completed"))
  paymentMethod := some sPaypal
  paymentType := some ("digital_goods")
  dateRaw := jsOrOpt ((firstCapture o).bind (fun c => c.create_time)) o.create_time
  payerEmail := (o.payer).bind (fun p => p.email_address)
  payerName := (o.payer).bind (fun p => (p.given_name))
  payerId := (o.payer).bind (fun p => (p.payer_id))

/-- The argument pair (paymentInfo, provider) of activateProPlan: every call
site passes a MercadoPago payment with provider `'mercadopago'` or a PayPal
order with provider `'paypal'`, so the pair is modelled as a sum. -/
inductive ProviderInfo where
  | mp (m : MPPaymentInfo)
  | pp (o : PPOrderDetails)
deriving DecidableEq, Repr

/-- The `provider` string passed alongside the payment object. -/
def providerName : ProviderInfo → String
  | .mp _ => sMercadopago
  | .pp _ => sPaypal

/-- `provider === 'paypal' ? paymentInfo.id : paymentInfo.id.toString()`. -/
def activationPaymentId : ProviderInfo → JsVal
  | .mp m => .str (toString m.id)
  | .pp o => .str o.id

/-- Dispatch of `formatPaymentData` on the provider. -/
def formatPaymentData : ProviderInfo → PaymentEntry
  | .mp m => mpFormatPaymentData m
  | .pp o => ppFormatPaymentData o

/-- `p.paymentId === paymentId || p.mercadoPagoId === paymentId ||
p.paypalOrderId === paymentId` (the dedup scan body). -/
def matchesIncoming (p : PaymentEntry) (pid : JsVal) : Bool :=
  jsEq p.paymentId pid || jsEq p.mercadoPagoId pid || jsEq p.paypalOrderId pid

/-- The user document fields the payment core reads and writes
(`_id.toString()` is `idStr`; the logging-only `email` is omitted). -/
structure UserRec where
  idStr : String
  isPro : Bool
  proExpiresAt : Option String
  payments : List PaymentEntry
deriving DecidableEq, Repr

/-- The record pushed onto `user.payments`
(`formattedPayment.provider = provider`). -/
def activationEntry (info : ProviderInfo) : PaymentEntry :=
  { formatPaymentData info with provider := some (providerName info) }

/-- paymentController.activateProPlan: dedup scan over `user.payments`,
then flip `isPro`, clear `proExpiresAt` and append the formatted record.
Returns the user unchanged when a matching payment already exists. -/
def activateProPlan (user : UserRec) (info : ProviderInfo) : UserRec :=
  let paymentId := activationPaymentId info
  if user.payments.any (fun p => matchesIncoming p paymentId) then user
  else { user with
          isPro := true
          proExpiresAt := none
          payments := user.payments ++ [activationEntry info] }

/-- Two activateProPlan arguments describing the same real-world payment:
same provider and same provider-native primary id. -/
def sameUnderlying : ProviderInfo → ProviderInfo → Bool
  | .mp m, .mp m2 => m.id == m2.id
  | .pp o, .pp o2 => o.id == o2.id
  | _, _ => false

/-- One provider API call issued by the PayPal service. -/
inductive PPCall where
  | getOrder (orderId : String)
  | captureReq (orderId : String)
deriving DecidableEq, Repr

/-- Oracle for the PayPal HTTP API: the provider response to an
OrdersGetRequest and to an OrdersCaptureRequest for a given order id.
`Except Unit` errors stand for thrown request failures. -/
structure PPEnv where
  getOrderResp : String → Except Unit PPOrderDetails
  captureResp : String → Except Unit PPOrderDetails

def msgGetOrderErr : String := "Error al obtener detalles de la orden"
def msgCaptureErr : String := "Error al capturar pago de PayPal"

/-- paypalService.getOrderDetails: one OrdersGetRequest; a failing request
is re-thrown with a fixed message.  The second component is the trace of
provider calls. -/
def getOrderDetails (env : PPEnv) (orderId : String) :
    Except String PPOrderDetails × List PPCall :=
  match env.getOrderResp orderId with
  | .ok o => (.ok o, [.getOrder orderId])
  | .error _ => (.error msgGetOrderErr, [.getOrder orderId])

/-- paypalService.capturePayment: fetch the order first; if it is already
COMPLETED return it as-is, if it is not APPROVED throw, otherwise issue the
OrdersCaptureRequest.  Every thrown error leaves the function as the fixed
message of the surrounding catch. -/
def capturePayment (env : PPEnv) (orderId : String) :
    Except String PPOrderDetails × List PPCall :=
  match getOrderDetails env orderId with
  | (.error _, calls) => (.error msgCaptureErr, calls)
  | (.ok orderDetails, calls) =>
    if orderDetails.status == some sCOMPLETED then (.ok orderDetails, calls)
    else if orderDetails.status != some sAPPROVED then (.error msgCaptureErr, calls)
    else
      match env.captureResp orderId with
      | .ok r => (.ok r, calls ++ [.captureReq orderId])
      | .error _ => (.error msgCaptureErr, calls ++ [.captureReq orderId])

/-- A link object of a webhook resource. -/
structure PPLink where
  rel : String
  href : String
deriving DecidableEq, Repr

/-- The `resource` of a PayPal webhook event (fields the service reads).
`orderIdSupp` is `supplementary_data?.related_ids?.order_id`. -/
structure PPResource where
  id : String
  orderIdSupp : Option String
  links : List PPLink
deriving DecidableEq, Repr

/-- A PayPal webhook event body. -/
structure PPWebhookEvent where
  event_type : Option String
  resource : Option PPResource
deriving DecidableEq, Repr

/-- `href.split('/').pop()`. -/
def lastSegment (href : String) : String :=
  (href.splitOn ("/")).getLastD ""

/-- The result object of paypalService.processWebhookNotification. -/
structure PPProcResult where
  processed : Bool
  reason : Option String
  orderDetails : Option PPOrderDetails
  customId : Option String
deriving DecidableEq, Repr

def msgTypeErr : String := "TypeError"

/-- paypalService.processWebhookNotification.  PAYMENT.CAPTURE.COMPLETED:
resolve the order id (supplementary data, else the `up` link) and fetch the
order.  CHECKOUT.ORDER.APPROVED: attempt a backstop capture; a capture
failure is swallowed and the event reports unprocessed.  Anything else is
ignored.  `.error` models an exception propagating to the caller; the
second component is the provider-call trace. -/
def ppProcessWebhookNotification (env : PPEnv) (webhookData : PPWebhookEvent) :
    Except String PPProcResult × List PPCall :=
  if webhookData.event_type == some sCaptureCompleted then
    match webhookData.resource with
    | none => (.error msgTypeErr, [])
    | some resource =>
      match resource.orderIdSupp with
      | some orderId =>
        match getOrderDetails env orderId with
        | (.ok orderDetails, calls) =>
          (.ok ⟨true, none, some orderDetails, orderCustomId orderDetails⟩, calls)
        | (.error e, calls) => (.error e, calls)
      | none =>
        match resource.links.find? (fun l => l.rel == "up") with
        | some upLink =>
          match getOrderDetails env (lastSegment upLink.href) with
          | (.ok orderDetails, calls) =>
            (.ok ⟨true, none, some orderDetails, orderCustomId orderDetails⟩, calls)
          | (.error e, calls) => (.error e, calls)
        | none =>
          (.ok ⟨false, some ("Could not extract order ID from capture webhook"), none, none⟩, [])
  else if webhookData.event_type == some sOrderApproved then
    match webhookData.resource with
    | none => (.error msgTypeErr, [])
    | some resource =>
      let reasonStr := "Order " ++ resource.id ++ " capture attempted from webhook"
      match capturePayment env resource.id with
      | (.ok capturedOrder, calls) =>
        if isPaymentCompleted capturedOrder then
          (.ok ⟨true, none, some capturedOrder, orderCustomId capturedOrder⟩, calls)
        else
          (.ok ⟨false, some reasonStr, none, none⟩, calls)
      | (.error _, calls) => (.ok ⟨false, some reasonStr, none, none⟩, calls)
  else
    (.ok ⟨false, some ("Event type not handled: " ++ (webhookData.event_type).getD "undefined"),
          none, none⟩, [])

/-- The five `paypal-*` signature headers read by verifyWebhookSignature. -/
structure PPVerifyHeaders where
  authAlgo : Option String
  certUrl : Option String
  transmissionId : Option String
  transmissionSig : Option String
  transmissionTime : Option String
deriving DecidableEq, Repr

/-- The body of the server-to-server verify-webhook-signature call. -/
structure VerifyReq where
  headers : PPVerifyHeaders
  webhookId : String
  webhookEvent : PPWebhookEvent
deriving DecidableEq, Repr

/-- Oracle for verifyWebhookSignature: the configured PAYPAL_WEBHOOK_ID and
the outcome of the verification round-trip (token fetch, JSON handling,
network and response parsing all live inside the same try block, so a
thrown step is one `.error`; `.ok` carries the `verification_status`
field of the provider answer, absent fields included). -/
structure VerifyEnv where
  webhookId : Option String
  callVerify : VerifyReq → Except Unit (Option String)

/-- paypalService.verifyWebhookSignature: fail-closed — missing
configuration, any thrown step and any answer other than
verification_status SUCCESS all yield `false`. -/
def verifyWebhookSignature (env : VerifyEnv) (headers : PPVerifyHeaders)
    (body : PPWebhookEvent) : Bool :=
  match env.webhookId with
  | none => false
  | some webhookId =>
    match env.callVerify ⟨headers, webhookId, body⟩ with
    | .error _ => false
    | .ok verificationStatus => verificationStatus == some sSUCCESS

/-- Outcome of one `this.payment.get` request: the payment object, or a
thrown request error carrying an optional HTTP status. -/
inductive MPFetchOutcome where
  | ok (p : MPPaymentInfo)
  | err (httpStatus : Option Nat)
deriving DecidableEq, Repr

/-- Oracle for the MercadoPago payments API: the response for a queried id
at each attempt number (1-based). -/
abbrev MPEnv : Type := JsVal → Nat → MPFetchOutcome

def msgMPExhausted : String := "No se pudo obtener informacion del pago despues de los intentos"

/-- What a run of mercadoPagoService.getPaymentInfo did: the returned
payment (or the final thrown error), how many requests were issued, and
the waits performed between attempts (in ms). -/
structure MPGetOut where
  result : Except String MPPaymentInfo
  attemptsMade : Nat
  sleepsMs : List Nat
deriving Repr

/-- The retry loop of getPaymentInfo, by remaining attempts: a successful
request returns at once; a 404 before the last attempt sleeps `delayMs`
and retries; any other error before the last attempt retries without
sleeping; the last attempt's error ends the loop and throws. -/
def getPaymentInfoGo (fetch : Nat → MPFetchOutcome) (maxRetries delayMs : Nat) :
    Nat → List Nat → MPGetOut
  | 0, sleeps => ⟨.error msgMPExhausted, maxRetries, sleeps⟩
  | k + 1, sleeps =>
    let attempt := maxRetries - k
    match fetch attempt with
    | .ok p => ⟨.ok p, attempt, sleeps⟩
    | .err httpStatus =>
      if httpStatus == some 404 && attempt < maxRetries then
        getPaymentInfoGo fetch maxRetries delayMs k (sleeps ++ [delayMs])
      else if attempt == maxRetries then ⟨.error msgMPExhausted, attempt, sleeps⟩
      else getPaymentInfoGo fetch maxRetries delayMs k sleeps

/-- mercadoPagoService.getPaymentInfo with its default arguments
`maxRetries = 5`, `delayMs = 2000`. -/
def getPaymentInfo (fetch : Nat → MPFetchOutcome) : MPGetOut :=
  getPaymentInfoGo fetch 5 2000 5 []

/-- A normalized MercadoPago webhook body `{action, type, data: {id}}`
(`dataId = none` models an absent `data.id`). -/
structure MPWebhookData where
  action : Option String
  type : Option String
  dataId : Option JsVal
deriving DecidableEq, Repr

/-- The result object of mercadoPagoService.processWebhookNotification. -/
structure MPProcResult where
  processed : Bool
  reason : Option String
  paymentInfo : Option MPPaymentInfo
  statusEcho : Option String
  externalReference : Option String
deriving DecidableEq, Repr

/-- `type === 'payment' || action === 'payment.created' ||
action === 'payment.updated'` (shared by both service revisions). -/
def mpIsPaymentNotification (d : MPWebhookData) : Bool :=
  d.type == some sPayment || d.action == some sPaymentCreated ||
    d.action == some sPaymentUpdated

/-- mercadoPagoService.processWebhookNotification (the revision wired into
the controllers): every payment notification — `payment.created`
included — fetches the payment state via getPaymentInfo.  The boolean
records whether a fetch was started. -/
def mpProcessWebhookNotification (env : MPEnv) (d : MPWebhookData) :
    Except String MPProcResult × Bool :=
  if !(mpIsPaymentNotification d) then
    (.ok ⟨false, some ("Not a payment notification: " ++
        (jsOrOpt d.action d.type).getD "undefined"), none, none, none⟩, false)
  else
    let paymentId := d.dataId.getD .undef
    match (getPaymentInfo (env paymentId)).result with
    | .ok paymentInfo =>
      (.ok ⟨true, none, some paymentInfo, paymentInfo.status,
            paymentInfo.external_reference⟩, true)
    | .error e => (.error e, true)

/-- The retry helper of the earlier service revision (src/unnamed/part_013):
up to `retries` single fetches, retrying on any error with a delay. -/
def getPaymentInfoWithRetryGo (fetch : Nat → MPFetchOutcome) (retries : Nat) :
    Nat → Except String MPPaymentInfo
  | 0 => .error msgMPExhausted
  | k + 1 =>
    match fetch (retries - k) with
    | .ok p => .ok p
    | .err _ =>
      if k == 0 then .error msgMPExhausted
      else getPaymentInfoWithRetryGo fetch retries k

/-- processWebhookNotification of the earlier revision
(src/unnamed/part_013): a `payment.created` action is ignored before any
fetch; otherwise the payment is fetched with the 3-attempt retry helper. -/
def mpProcessWebhookNotification_v013 (env : MPEnv) (d : MPWebhookData) :
    Except String MPProcResult × Bool :=
  if !(mpIsPaymentNotification d) then
    (.ok ⟨false, some ("Not a payment notification: " ++
        (jsOrOpt d.action d.type).getD "undefined"), none, none, none⟩, false)
  else if d.action == some sPaymentCreated then
    (.ok ⟨false, some ("Ignoring payment.created, waiting for payment.updated"),
          none, none, none⟩, false)
  else
    let paymentId := d.dataId.getD .undef
    match getPaymentInfoWithRetryGo (env paymentId) 3 3 with
    | .ok paymentInfo =>
      (.ok ⟨true, none, some paymentInfo, paymentInfo.status,
            paymentInfo.external_reference⟩, true)
    | .error e => (.error e, true)

/-- The user-record store keyed by `_id.toString()`; `User.findById` and
`user.save()` read and replace entries. -/
abbrev UserStore : Type := List (String × UserRec)

def findUser (store : UserStore) (userId : String) : Option UserRec :=
  (store.find? (fun kv => kv.1 == userId)).map (fun kv => kv.2)

def saveUser (store : UserStore) (userId : String) (u : UserRec) : UserStore :=
  store.map (fun kv => if kv.1 == userId then (userId, u) else kv)

/-- The parts of an inbound MercadoPago webhook request the controller
reads: body fields and legacy IPN query parameters. -/
structure MPReq where
  bodyAction : Option String
  bodyType : Option String
  bodyDataId : Option JsVal
  queryTopic : Option String
  queryType : Option String
  queryId : JsVal
  queryDataId : JsVal
deriving Repr

/-- Outcome of one webhook delivery: the store afterwards, the
activateProPlan invocation (user id and payment) if one was made, and
whether the payment state was fetched from the provider. -/
structure MPHandleOut where
  store : UserStore
  activated : Option (String × MPPaymentInfo)
  fetched : Bool
deriving Repr

/-- The processing part of paymentController.handleMercadoPagoWebhook on a
normalized event: process, resolve the user by the echoed
external_reference, and call activateProPlan only when isPaymentApproved
holds.  Thrown errors are swallowed by the surrounding catch, leaving the
store unchanged. -/
def handleMPEvent (env : MPEnv) (store : UserStore) (d : MPWebhookData) :
    MPHandleOut :=
  match mpProcessWebhookNotification env d with
  | (.error _, fetched) => ⟨store, none, fetched⟩
  | (.ok result, fetched) =>
    if !result.processed then ⟨store, none, fetched⟩
    else
      match result.externalReference with
      | none => ⟨store, none, fetched⟩
      | some userId =>
        match findUser store userId with
        | none => ⟨store, none, fetched⟩
        | some user =>
          match result.paymentInfo with
          | some paymentInfo =>
            if isPaymentApproved paymentInfo then
              ⟨saveUser store userId (activateProPlan user (.mp paymentInfo)),
               some (userId, paymentInfo), fetched⟩
            else ⟨store, none, fetched⟩
          | none => ⟨store, none, fetched⟩

/-- paymentController.handleMercadoPagoWebhook (the 200 ack is sent before
any of this and is not modelled): recognize and normalize the two webhook
formats, then hand the event to handleMPEvent. -/
def handleMercadoPagoWebhook (env : MPEnv) (store : UserStore) (req : MPReq) :
    MPHandleOut :=
  let webhookData : Option MPWebhookData :=
    if optTruthy req.bodyAction || req.bodyType == some sPayment then
      some ⟨req.bodyAction, req.bodyType, req.bodyDataId⟩
    else if optTruthy req.queryTopic || optTruthy req.queryType then
      some ⟨none, jsOrOpt req.queryTopic req.queryType,
            some (jsOrV req.queryId req.queryDataId)⟩
    else none
  match webhookData with
  | none => ⟨store, none, false⟩
  | some d => handleMPEvent env store d

/-- Outcome of one PayPal webhook delivery. -/
structure PPHandleOut where
  store : UserStore
  activated : Option (String × PPOrderDetails)
  calls : List PPCall
deriving Repr

/-- paymentController.handlePayPalWebhook (the 200 ack precedes all of
this): verify the signature first and stop on failure; then process the
event, resolve the user by the echoed custom_id, and call activateProPlan
only when isPaymentCompleted holds.  Thrown errors are swallowed by the
surrounding catch. -/
def handlePayPalWebhook (venv : VerifyEnv) (penv : PPEnv) (store : UserStore)
    (headers : PPVerifyHeaders) (body : PPWebhookEvent) : PPHandleOut :=
  if !(verifyWebhookSignature venv headers body) then ⟨store, none, []⟩
  else
    match ppProcessWebhookNotification penv body with
    | (.error _, calls) => ⟨store, none, calls⟩
    | (.ok result, calls) =>
      if !result.processed then ⟨store, none, calls⟩
      else
        match result.customId with
        | none => ⟨store, none, calls⟩
        | some userId =>
          match findUser store userId with
          | none => ⟨store, none, calls⟩
          | some user =>
            match result.orderDetails with
            | some orderDetails =>
              if isPaymentCompleted orderDetails then
                ⟨saveUser store userId (activateProPlan user (.pp orderDetails)),
                 some (userId, orderDetails), calls⟩
              else ⟨store, none, calls⟩
            | none => ⟨store, none, calls⟩

/-- An HTTP response of the synchronous payment endpoints (status code and
message; the remaining payload fields carry no entitlement state). -/
structure HttpResp where
  status : Nat
  message : String
deriving DecidableEq, Repr

def msgNoPermCapture : String := "No tienes permiso para capturar este pago"
def msgNoPermStatus : String := "No tienes permiso para acceder a este pago"
def msgCaptureOk : String := "Pago completado, Plan PRO activado"
def msgIncomplete : String := "El pago no se completo correctamente"
def msgStatusErr : String := "Error al verificar estado del pago"
def msgBadProvider : String := "Proveedor de pago no valido"

/-- paymentController.capturePayPalPayment: capture, check the echoed
custom_id against the authenticated user, and activate on a completed
payment.  A throw anywhere (capturePayment included) is answered 500 by
the surrounding catch, with the user untouched. -/
def capturePayPalPayment (env : PPEnv) (user : UserRec) (orderId : String) :
    HttpResp × UserRec :=
  match capturePayment env orderId with
  | (.error _, _) => (⟨500, msgCaptureErr⟩, user)
  | (.ok orderDetails, _) =>
    let customId := orderCustomId orderDetails
    if customId != some user.idStr then (⟨403, msgNoPermCapture⟩, user)
    else if isPaymentCompleted orderDetails then
      (⟨200, msgCaptureOk⟩, activateProPlan user (.pp orderDetails))
    else (⟨400, msgIncomplete⟩, user)

/-- paymentController.checkPaymentStatus: read-only status lookup for either
provider; 403 when the echoed reference does not match the caller; the
user record is never modified. -/
def checkPaymentStatus (penv : PPEnv) (menv : MPEnv) (user : UserRec)
    (provider : String) (paymentId : String) : HttpResp × UserRec :=
  if provider == sPaypal then
    match getOrderDetails penv paymentId with
    | (.error _, _) => (⟨500, msgStatusErr⟩, user)
    | (.ok paymentInfo, _) =>
      if orderCustomId paymentInfo != some user.idStr then
        (⟨403, msgNoPermStatus⟩, user)
      else (⟨200, ""⟩, user)
  else if provider == sMercadopago then
    match (getPaymentInfo (menv (.str paymentId))).result with
    | .error _ => (⟨500, msgStatusErr⟩, user)
    | .ok paymentInfo =>
      if paymentInfo.external_reference != some user.idStr then
        (⟨403, msgNoPermStatus⟩, user)
      else (⟨200, ""⟩, user)
  else (⟨400, msgBadProvider⟩, user)

/-! ### Concrete fixtures shared by witnesses and counterexamples -/

/-- An approved/accredited MercadoPago payment attributed to user u1. -/
def exMP : MPPaymentInfo :=
  ⟨123, some sApproved, some sAccredited, some ("u1"), .num 3, some ("USD"),
   some ("visa"), some ("credit_card"), some ("2025-01-01")⟩

/-- A completed capture record. -/
def exCapture : PPCapture :=
  ⟨some ("CAP1"), some sCOMPLETED, some ("1.75"), some ("USD"), none⟩

/-- A fully completed PayPal order attributed to user u1. -/
def exOrderCompleted : PPOrderDetails :=
  ⟨"O1", some sCOMPLETED, [⟨some ("u1"), some ⟨[exCapture]⟩⟩], none, none⟩

/-- An approved, not yet captured PayPal order attributed to user u1. -/
def exOrderApproved : PPOrderDetails :=
  ⟨"O1", some sAPPROVED, [⟨some ("u1"), none⟩], none, none⟩

/-- A created, never-approved PayPal order attributed to user u1. -/
def exOrderCreated : PPOrderDetails :=
  ⟨"O1", some ("CREATED"), [⟨some ("u1"), none⟩], none, none⟩

/-- A non-PRO user u1 with no payment history. -/
def exUser : UserRec := ⟨"u1", false, none, []⟩

/-! ### Claim theorems -/

/-- Claim C1: activateProPlan applied twice to the same underlying payment
(by any combination of the webhook and capture entry points, which both
funnel into this one operation) appends exactly one record, flips isPro
from false to true once, and the second invocation returns the user record
unchanged. -/
theorem C1_activateProPlan_idempotent
    (u : UserRec) (p p2 : ProviderInfo)
    (hfresh : u.payments.any (fun e => matchesIncoming e (activationPaymentId p)) = false)
    (hnotPro : u.isPro = false)
    (hsame : sameUnderlying p p2 = true) :
    (activateProPlan u p).isPro = true ∧
    u.isPro = false ∧
    (activateProPlan u p).payments = u.payments ++ [activationEntry p] ∧
    activateProPlan (activateProPlan u p) p2 = activateProPlan u p := by
  have key : matchesIncoming (activationEntry p) (activationPaymentId p2) = true := by
    cases p <;> cases p2 <;> simp [sameUnderlying] at hsame <;>
      simp [matchesIncoming, activationEntry, formatPaymentData, mpFormatPaymentData,
            ppFormatPaymentData, activationPaymentId, jsEq, hsame]
  have h1 : activateProPlan u p =
      { u with isPro := true, proExpiresAt := none,
               payments := u.payments ++ [activationEntry p] } := by
    simp [activateProPlan, hfresh]
  refine ⟨by rw [h1], hnotPro, by rw [h1], ?_⟩
  rw [h1]
  simp [activateProPlan, List.any_append, key]

/-- Witness for C1 at a fresh user and a MercadoPago payment delivered
twice. -/
theorem C1_witness :
    (activateProPlan exUser (.mp exMP)).isPro = true ∧
    exUser.isPro = false ∧
    (activateProPlan exUser (.mp exMP)).payments =
      exUser.payments ++ [activationEntry (.mp exMP)] ∧
    activateProPlan (activateProPlan exUser (.mp exMP)) (.mp exMP) =
      activateProPlan exUser (.mp exMP) :=
  C1_activateProPlan_idempotent exUser (.mp exMP) (.mp exMP) rfl rfl rfl

/-- Claim C2: isPaymentApproved holds exactly for status approved with
status_detail accredited, and isPaymentCompleted exactly for order status
COMPLETED with a first capture record of status COMPLETED; every other
combination is rejected. -/
theorem C2_final_success_predicates (m : MPPaymentInfo) (o : PPOrderDetails) :
    (isPaymentApproved m = true ↔
      (m.status = some sApproved ∧ m.status_detail = some sAccredited)) ∧
    (isPaymentCompleted o = true ↔
      (o.status = some sCOMPLETED ∧
        (firstCapture o).bind (fun c => c.status) = some sCOMPLETED)) := by
  constructor <;> simp [isPaymentApproved, isPaymentCompleted]

/-- Witness for C2 at the terminal combinations of both providers. -/
theorem C2_witness :
    isPaymentApproved exMP = true ∧ isPaymentCompleted exOrderCompleted = true :=
  ⟨(C2_final_success_predicates exMP exOrderCompleted).1.mpr ⟨rfl, rfl⟩,
   (C2_final_success_predicates exMP exOrderCompleted).2.mpr ⟨rfl, rfl⟩⟩

/-- An ORDER.APPROVED webhook resource for order O1. -/
def exResourceO1 : PPResource := ⟨"O1", none, []⟩

/-- A CHECKOUT.ORDER.APPROVED webhook event for order O1. -/
def exEventOA : PPWebhookEvent := ⟨some sOrderApproved, some exResourceO1⟩

/-- Webhook signature headers with every field absent. -/
def exHeaders : PPVerifyHeaders := ⟨none, none, none, none, none⟩

/-- Provider oracle: O1 is approved; a capture request completes it. -/
def envApproved : PPEnv := ⟨fun _ => .ok exOrderApproved, fun _ => .ok exOrderCompleted⟩

/-- Provider oracle: O1 is already fully completed. -/
def envCompleted : PPEnv := ⟨fun _ => .ok exOrderCompleted, fun _ => .ok exOrderCompleted⟩

/-- Provider oracle: O1 was created but never approved by the payer. -/
def envCreated : PPEnv := ⟨fun _ => .ok exOrderCreated, fun _ => .error ()⟩

/-- Verification oracle: webhook id configured, provider answers SUCCESS. -/
def venvOk : VerifyEnv := ⟨some ("WID1"), fun _ => .ok (some sSUCCESS)⟩

/-- Verification oracle: PAYPAL_WEBHOOK_ID not configured. -/
def venvNoId : VerifyEnv := ⟨none, fun _ => .ok (some sSUCCESS)⟩

/-- MercadoPago oracle: every lookup finds the approved payment exMP. -/
def menvApproved : MPEnv := fun _ _ => .ok exMP

/-- Fetch outcomes: success at the first attempt. -/
def mfetchOk : Nat → MPFetchOutcome := fun _ => .ok exMP

/-- Fetch outcomes: a 500 error at the first attempt, success afterwards. -/
def fetchC8 : Nat → MPFetchOutcome := fun n => if n == 1 then .err (some 500) else .ok exMP

/-- A non-PRO user whose id differs from the u1 references above. -/
def exUserX : UserRec := ⟨"uX", false, none, []⟩

/-- A normalized payment.created webhook body for payment 123. -/
def exCreatedData : MPWebhookData := ⟨some sPaymentCreated, none, some (.num 123)⟩

/-- An inbound new-format MercadoPago webhook request with action
payment.created for payment 123. -/
def reqCreated : MPReq :=
  ⟨some sPaymentCreated, some sPayment, some (.num 123), none, none, .undef, .undef⟩

/-- Claim C5: whenever signature verification of a PayPal webhook fails,
the handler stops before processing: no reconciliation is invoked, no
provider call is made and the store is unchanged, whatever the payload. -/
theorem C5_unverified_webhook_never_reconciles
    (venv : VerifyEnv) (penv : PPEnv) (store : UserStore)
    (headers : PPVerifyHeaders) (body : PPWebhookEvent)
    (hfail : verifyWebhookSignature venv headers body = false) :
    handlePayPalWebhook venv penv store headers body = ⟨store, none, []⟩ := by
  simp [handlePayPalWebhook, hfail]

/-- Witness for C5: missing webhook-id configuration fails verification, so
a completed-looking payload changes nothing. -/
theorem C5_witness :
    handlePayPalWebhook venvNoId envApproved [("u1", exUser)] exHeaders exEventOA =
      ⟨[("u1", exUser)], none, []⟩ :=
  C5_unverified_webhook_never_reconciles venvNoId envApproved [("u1", exUser)]
    exHeaders exEventOA rfl

/-- Claim C6: capturePayment returns an already-COMPLETED order as success
without a capture request, and fails without a capture request when the
order is in any state other than APPROVED or COMPLETED. -/
theorem C6_capturePayment_idempotent
    (env : PPEnv) (orderId : String) (o : PPOrderDetails)
    (hget : env.getOrderResp orderId = .ok o) :
    (o.status = some sCOMPLETED →
      capturePayment env orderId = (.ok o, [.getOrder orderId])) ∧
    (o.status ≠ some sCOMPLETED → o.status ≠ some sAPPROVED →
      capturePayment env orderId = (.error msgCaptureErr, [.getOrder orderId])) := by
  constructor
  · intro h
    simp [capturePayment, getOrderDetails, hget, h]
  · intro h1 h2
    simp [capturePayment, getOrderDetails, hget, h1, h2]

/-- Witness for C6: a completed order is returned as-is, a created order
fails, and neither run issues a capture request. -/
theorem C6_witness :
    capturePayment envCompleted "O1" = (.ok exOrderCompleted, [.getOrder ("O1")]) ∧
    capturePayment envCreated "O1" = (.error msgCaptureErr, [.getOrder ("O1")]) :=
  ⟨(C6_capturePayment_idempotent envCompleted "O1" exOrderCompleted rfl).1 rfl,
   (C6_capturePayment_idempotent envCreated "O1" exOrderCreated rfl).2
     (by decide) (by decide)⟩

/-- Counterexample to claim C7: with the provider reporting order O1 in
state CREATED, the capture endpoint answers 500 with a generic message —
not the claimed 400 carrying the provider state — though the user record
is indeed unchanged. -/
theorem C7_counterexample :
    (capturePayPalPayment envCreated exUser "O1").1.status = 500 ∧
    ¬((capturePayPalPayment envCreated exUser "O1").1.status = 400) ∧
    (capturePayPalPayment envCreated exUser "O1").2 = exUser :=
  ⟨rfl, by decide, rfl⟩

/-- Claim C7 as amended: when the order is in a non-capturable state the
capture endpoint answers HTTP 500 with the generic capture-error message
(the provider-reported state is swallowed by the service's catch), and the
caller's entitlement — isPro and the payments list — is unchanged. -/
theorem C7_nonCapturable_gives_500
    (env : PPEnv) (u : UserRec) (orderId : String) (o : PPOrderDetails)
    (hget : env.getOrderResp orderId = .ok o)
    (h1 : o.status ≠ some sCOMPLETED) (h2 : o.status ≠ some sAPPROVED) :
    capturePayPalPayment env u orderId = (⟨500, msgCaptureErr⟩, u) := by
  simp [capturePayPalPayment, capturePayment, getOrderDetails, hget, h1, h2]

/-- Witness for C7 at the CREATED order of the counterexample. -/
theorem C7_witness :
    capturePayPalPayment envCreated exUser "O1" = (⟨500, msgCaptureErr⟩, exUser) :=
  C7_nonCapturable_gives_500 envCreated exUser "O1" exOrderCreated rfl
    (by decide) (by decide)

/-- Claim C10: verifyWebhookSignature is a total boolean function that
answers true exactly when the webhook id is configured and the
server-to-server verification call returns verification_status SUCCESS;
missing configuration, a thrown verification step and every other answer
yield false. -/
theorem C10_verifyWebhookSignature_fail_closed
    (env : VerifyEnv) (headers : PPVerifyHeaders) (body : PPWebhookEvent) :
    verifyWebhookSignature env headers body = true ↔
      ∃ wid, env.webhookId = some wid ∧
        env.callVerify ⟨headers, wid, body⟩ = .ok (some sSUCCESS) := by
  unfold verifyWebhookSignature
  cases h : env.webhookId with
  | none => simp
  | some wid =>
    cases h2 : env.callVerify ⟨headers, wid, body⟩ with
    | error e => simp [h2]
    | ok verificationStatus => simp [h2]

/-- Witness for C10: a configured id and a SUCCESS answer verify. -/
theorem C10_witness : verifyWebhookSignature venvOk exHeaders exEventOA = true :=
  (C10_verifyWebhookSignature_fail_closed venvOk exHeaders exEventOA).mpr
    ⟨"WID1", rfl, rfl⟩

/-- Claim C9: when the authenticated caller differs from the user id echoed
in the provider's custom reference, the capture endpoint and both status
endpoints answer 403 and leave the caller's record untouched (no code path
grants an entitlement to anyone else). -/
theorem C9_attribution_mismatch_403
    (penv : PPEnv) (menv : MPEnv) (u : UserRec) (orderId payId : String)
    (od : PPOrderDetails) (m : MPPaymentInfo) :
    ((capturePayment penv orderId).1 = .ok od →
      orderCustomId od ≠ some u.idStr →
      capturePayPalPayment penv u orderId = (⟨403, msgNoPermCapture⟩, u)) ∧
    (penv.getOrderResp orderId = .ok od →
      orderCustomId od ≠ some u.idStr →
      checkPaymentStatus penv menv u sPaypal orderId = (⟨403, msgNoPermStatus⟩, u)) ∧
    ((getPaymentInfo (menv (.str payId))).result = .ok m →
      m.external_reference ≠ some u.idStr →
      checkPaymentStatus penv menv u sMercadopago payId = (⟨403, msgNoPermStatus⟩, u)) := by
  refine ⟨?_, ?_, ?_⟩
  · intro hcap hmis
    unfold capturePayPalPayment
    rcases hc : capturePayment penv orderId with ⟨res, calls⟩
    rw [hc] at hcap
    simp only at hcap
    subst hcap
    simp [hmis]
  · intro hget hmis
    simp [checkPaymentStatus, getOrderDetails, hget, hmis]
  · intro hget hmis
    rw [checkPaymentStatus]
    have hne : (sMercadopago == sPaypal) = false := by decide
    rw [hne]
    simp [hget, hmis]

/-- Witness for C9: caller uX is rejected on u1's order and payment by all
three endpoints. -/
theorem C9_witness :
    capturePayPalPayment envCompleted exUserX "O1" = (⟨403, msgNoPermCapture⟩, exUserX) ∧
    checkPaymentStatus envCompleted menvApproved exUserX sPaypal "O1" =
      (⟨403, msgNoPermStatus⟩, exUserX) ∧
    checkPaymentStatus envCompleted menvApproved exUserX sMercadopago "123" =
      (⟨403, msgNoPermStatus⟩, exUserX) :=
  ⟨(C9_attribution_mismatch_403 envCompleted menvApproved exUserX "O1" "123"
      exOrderCompleted exMP).1 rfl (by decide),
   (C9_attribution_mismatch_403 envCompleted menvApproved exUserX "O1" "123"
      exOrderCompleted exMP).2.1 rfl (by decide),
   (C9_attribution_mismatch_403 envCompleted menvApproved exUserX "O1" "123"
      exOrderCompleted exMP).2.2 rfl (by decide)⟩

/-- Unfolding equation of the retry loop at zero remaining attempts. -/
theorem getPaymentInfoGo_zero (fetch : Nat → MPFetchOutcome) (M d : Nat) (s : List Nat) :
    getPaymentInfoGo fetch M d 0 s = ⟨.error msgMPExhausted, M, s⟩ := rfl

/-- Unfolding equation of the retry loop at one more remaining attempt. -/
theorem getPaymentInfoGo_succ (fetch : Nat → MPFetchOutcome) (M d k : Nat) (s : List Nat) :
    getPaymentInfoGo fetch M d (k + 1) s =
      (match fetch (M - k) with
       | .ok p => ⟨.ok p, M - k, s⟩
       | .err st =>
         if st == some 404 && decide (M - k < M) then
           getPaymentInfoGo fetch M d k (s ++ [d])
         else if (M - k) == M then ⟨.error msgMPExhausted, M - k, s⟩
         else getPaymentInfoGo fetch M d k s) := rfl

/-- The retry loop never makes more requests than maxRetries. -/
theorem getPaymentInfoGo_attempts_le (fetch : Nat → MPFetchOutcome) (M d : Nat) :
    ∀ k s, (getPaymentInfoGo fetch M d k s).attemptsMade ≤ M := by
  intro k
  induction k with
  | zero => intro s; simp [getPaymentInfoGo_zero]
  | succ k ih =>
    intro s
    rw [getPaymentInfoGo_succ]
    cases h : fetch (M - k) with
    | ok p => simp [Nat.sub_le]
    | err st =>
      simp only
      split
      · exact ih _
      · split
        · simp [Nat.sub_le]
        · exact ih _

/-- Every wait recorded by the retry loop is the configured delay. -/
theorem getPaymentInfoGo_sleeps (fetch : Nat → MPFetchOutcome) (M d : Nat) :
    ∀ k s, (∀ x ∈ s, x = d) →
      ∀ x ∈ (getPaymentInfoGo fetch M d k s).sleepsMs, x = d := by
  intro k
  induction k with
  | zero => intro s hs; simpa [getPaymentInfoGo_zero] using hs
  | succ k ih =>
    intro s hs
    rw [getPaymentInfoGo_succ]
    cases h : fetch (M - k) with
    | ok p => simpa using hs
    | err st =>
      simp only
      split
      · refine ih _ ?_
        intro x hx
        rcases List.mem_append.mp hx with h1 | h1
        · exact hs x h1
        · simpa using h1
      · split
        · simpa using hs
        · exact ih _ hs

/-- Counterexample to claim C8: a provider answer of 500 (not 404) at the
first attempt is retried as well — the second attempt succeeds after two
requests and with no 2-second wait, where the claim requires a non-404
error to fail without retrying. -/
theorem C8_counterexample :
    (getPaymentInfo fetchC8).result = .ok exMP ∧
    (getPaymentInfo fetchC8).attemptsMade = 2 ∧
    (getPaymentInfo fetchC8).sleepsMs = [] :=
  ⟨rfl, rfl, rfl⟩

/-- Claim C8 as amended: getPaymentInfo makes at most 5 attempts and always
terminates; every wait is 2000 ms; a payment that is found is returned
immediately whatever its status, with one attempt and no waiting; and an
error of any kind at the first attempt is retried — with the 2-second wait
exactly when that error was a 404. -/
theorem C8_getPaymentInfo_retry_policy (fetch : Nat → MPFetchOutcome) :
    (getPaymentInfo fetch).attemptsMade ≤ 5 ∧
    (∀ x ∈ (getPaymentInfo fetch).sleepsMs, x = 2000) ∧
    (∀ p, fetch 1 = .ok p → getPaymentInfo fetch = ⟨.ok p, 1, []⟩) ∧
    (∀ st p, fetch 1 = .err st → fetch 2 = .ok p →
      (getPaymentInfo fetch).result = .ok p ∧
      (getPaymentInfo fetch).attemptsMade = 2 ∧
      (getPaymentInfo fetch).sleepsMs = (if st == some 404 then [2000] else [])) := by
  have e1 : getPaymentInfo fetch =
      (match fetch 1 with
       | .ok p => ⟨.ok p, 1, []⟩
       | .err st =>
         if st == some 404 && true then getPaymentInfoGo fetch 5 2000 4 [2000]
         else if (1 == 5 : Bool) then ⟨.error msgMPExhausted, 1, []⟩
         else getPaymentInfoGo fetch 5 2000 4 []) := rfl
  have e2 : ∀ s, getPaymentInfoGo fetch 5 2000 4 s =
      (match fetch 2 with
       | .ok p => ⟨.ok p, 2, s⟩
       | .err st =>
         if st == some 404 && true then getPaymentInfoGo fetch 5 2000 3 (s ++ [2000])
         else if (2 == 5 : Bool) then ⟨.error msgMPExhausted, 2, s⟩
         else getPaymentInfoGo fetch 5 2000 3 s) := fun _ => rfl
  refine ⟨getPaymentInfoGo_attempts_le fetch 5 2000 5 [],
          getPaymentInfoGo_sleeps fetch 5 2000 5 [] (by simp), ?_, ?_⟩
  · intro p h
    rw [e1, h]
  · intro st p h1 h2
    rw [e1, h1]
    cases hst : st == some 404 with
    | true => simp [hst, e2, h2]
    | false => simp [hst, e2, h2]

/-- Witness for C8 at an immediately successful fetch. -/
theorem C8_witness :
    (getPaymentInfo mfetchOk).attemptsMade ≤ 5 ∧
    getPaymentInfo mfetchOk = ⟨.ok exMP, 1, []⟩ :=
  ⟨(C8_getPaymentInfo_retry_policy mfetchOk).1,
   (C8_getPaymentInfo_retry_policy mfetchOk).2.2.1 exMP rfl⟩

/-- Counterexample to claim C3: a webhook whose action is payment.created
is not ignored by the service revision wired into the controller — the
payment state is fetched, and when the fetched payment is already
approved/accredited the event leads to an activateProPlan call. -/
theorem C3_counterexample :
    (mpProcessWebhookNotification menvApproved exCreatedData).2 = true ∧
    (handleMercadoPagoWebhook menvApproved [("u1", exUser)] reqCreated).activated =
      some ("u1", exMP) :=
  ⟨rfl, rfl⟩

/-- The MercadoPago event handler invokes activateProPlan only on a fetched
payment that isPaymentApproved accepts. -/
theorem handleMPEvent_activated_approved
    {env : MPEnv} {store : UserStore} {d : MPWebhookData}
    {userId : String} {p : MPPaymentInfo}
    (h : (handleMPEvent env store d).activated = some (userId, p)) :
    isPaymentApproved p = true := by
  unfold handleMPEvent at h
  rcases hr : mpProcessWebhookNotification env d with ⟨res, fetched⟩
  rw [hr] at h
  cases res with
  | error e => simp at h
  | ok result =>
    simp only at h
    repeat' split at h
    all_goals simp_all

/-- Claim C3 as amended: only the earlier service revision
(src/unnamed/part_013) ignores payment.created without fetching; the
revision wired into the controller fetches the payment state for
payment.created events just as for payment.updated ones, and any webhook
event leads to a reconciliation call only when the fetched payment is
final-success. -/
theorem C3_created_events_processing :
    (∀ env d, d.action = some sPaymentCreated →
      mpProcessWebhookNotification_v013 env d =
        (.ok ⟨false, some ("Ignoring payment.created, waiting for payment.updated"),
              none, none, none⟩, false)) ∧
    (∀ env d, d.action = some sPaymentCreated →
      (mpProcessWebhookNotification env d).2 = true) ∧
    (∀ env store req userId p,
      (handleMercadoPagoWebhook env store req).activated = some (userId, p) →
      isPaymentApproved p = true) := by
  refine ⟨?_, ?_, ?_⟩
  · intro env d h
    simp [mpProcessWebhookNotification_v013, mpIsPaymentNotification, h]
  · intro env d h
    rw [mpProcessWebhookNotification]
    have hp : mpIsPaymentNotification d = true := by
      simp [mpIsPaymentNotification, h]
    rw [hp]
    simp only [Bool.not_true, Bool.false_eq_true, if_false]
    cases (getPaymentInfo (env (d.dataId.getD .undef))).result <;> simp
  · intro env store req userId p h
    unfold handleMercadoPagoWebhook at h
    repeat' split at h
    all_goals
      first
        | exact handleMPEvent_activated_approved h
        | simp_all

/-- Witness for C3: the part_013 revision ignores the created event without
fetching, while the wired revision fetches for the very same event. -/
theorem C3_witness :
    mpProcessWebhookNotification_v013 menvApproved exCreatedData =
      (.ok ⟨false, some ("Ignoring payment.created, waiting for payment.updated"),
            none, none, none⟩, false) ∧
    (mpProcessWebhookNotification menvApproved exCreatedData).2 = true :=
  ⟨C3_created_events_processing.1 menvApproved exCreatedData rfl,
   C3_created_events_processing.2.1 menvApproved exCreatedData rfl⟩

/-- A PAYMENT.CAPTURE.COMPLETED webhook resource: capture CAP1 whose
supplementary data names order O1. -/
def exResourceCap : PPResource := ⟨"CAP1", some ("O1"), []⟩

/-- A PAYMENT.CAPTURE.COMPLETED webhook event for capture CAP1 / order O1. -/
def exEventCC : PPWebhookEvent := ⟨some sCaptureCompleted, some exResourceCap⟩

/-- Counterexample to claim C4: on a verified CHECKOUT.ORDER.APPROVED event
for an approved order, the webhook path issues a capture request of its
own, and the backstop capture even leads to an entitlement grant. -/
theorem C4_counterexample :
    (handlePayPalWebhook venvOk envApproved [("u1", exUser)] exHeaders
        exEventOA).calls.contains (.captureReq ("O1")) = true ∧
    (handlePayPalWebhook venvOk envApproved [("u1", exUser)] exHeaders
        exEventOA).activated = some ("u1", exOrderCompleted) :=
  ⟨rfl, rfl⟩

/-- Claim C4 as amended: the PayPal webhook path acts on
PAYMENT.CAPTURE.COMPLETED and, as a backstop, on CHECKOUT.ORDER.APPROVED —
for the latter it runs capturePayment on the event's order and treats the
event as processed exactly when that capture returns a completed order;
every other event type is ignored without any provider call.  A
PAYMENT.CAPTURE.COMPLETED event is acted on: the order id is resolved from
the supplementary data or, failing that, from the capture's `up` link, the
order is fetched, and the event is processed with the fetched order and
its echoed custom_id. -/
theorem C4_webhook_event_dispatch (env : PPEnv) (w : PPWebhookEvent) :
    (w.event_type ≠ some sCaptureCompleted → w.event_type ≠ some sOrderApproved →
      (ppProcessWebhookNotification env w).2 = [] ∧
      ∃ r, (ppProcessWebhookNotification env w).1 = .ok r ∧ r.processed = false) ∧
    (∀ resource, w.event_type = some sOrderApproved → w.resource = some resource →
      (ppProcessWebhookNotification env w).2 = (capturePayment env resource.id).2 ∧
      ∀ r, (ppProcessWebhookNotification env w).1 = .ok r →
        (r.processed = true ↔
          ∃ od, (capturePayment env resource.id).1 = .ok od ∧
            isPaymentCompleted od = true)) ∧
    (∀ resource, w.event_type = some sCaptureCompleted → w.resource = some resource →
      ∀ orderId,
        (resource.orderIdSupp = some orderId ∨
          (resource.orderIdSupp = none ∧
            ∃ l, resource.links.find? (fun x => x.rel == "up") = some l ∧
              lastSegment l.href = orderId)) →
        ∀ od, env.getOrderResp orderId = .ok od →
          ppProcessWebhookNotification env w =
            (.ok ⟨true, none, some od, orderCustomId od⟩, [.getOrder orderId])) := by
  refine ⟨?_, ?_, ?_⟩
  · intro h1 h2
    have e1 : (w.event_type == some sCaptureCompleted) = false := by
      simp only [beq_eq_false_iff_ne, ne_eq]
      exact h1
    have e2 : (w.event_type == some sOrderApproved) = false := by
      simp only [beq_eq_false_iff_ne, ne_eq]
      exact h2
    refine ⟨by simp [ppProcessWebhookNotification, e1, e2], ?_⟩
    refine ⟨⟨false, some ("Event type not handled: " ++ (w.event_type).getD "undefined"),
            none, none⟩, ?_, rfl⟩
    simp [ppProcessWebhookNotification, e1, e2]
  · intro resource h1 h2
    have e1 : (w.event_type == some sCaptureCompleted) = false := by
      rw [h1]; decide
    have e2 : (w.event_type == some sOrderApproved) = true := by
      rw [h1]; simp
    have key : ppProcessWebhookNotification env w =
        (match capturePayment env resource.id with
         | (.ok capturedOrder, calls) =>
           if isPaymentCompleted capturedOrder then
             (.ok ⟨true, none, some capturedOrder, orderCustomId capturedOrder⟩, calls)
           else
             (.ok ⟨false, some ("Order " ++ resource.id ++ " capture attempted from webhook"),
                   none, none⟩, calls)
         | (.error e, calls) =>
           (.ok ⟨false, some ("Order " ++ resource.id ++ " capture attempted from webhook"),
                 none, none⟩, calls)) := by
      rw [ppProcessWebhookNotification]
      simp [e1, e2, h2]
    rw [key]
    rcases hc : capturePayment env resource.id with ⟨cres, calls⟩
    cases cres with
    | error e => simp [hc]
    | ok captured =>
      by_cases hcomp : isPaymentCompleted captured = true
      · simp [hc, hcomp]
      · simp [hc, hcomp]
  · intro resource h1 h2 orderId hres od hget
    have e1 : (w.event_type == some sCaptureCompleted) = true := by
      rw [h1]; simp
    rcases hres with hsupp | ⟨hsupp, l, hfind, horder⟩
    · simp [ppProcessWebhookNotification, e1, h2, hsupp, getOrderDetails, hget]
    · simp [ppProcessWebhookNotification, e1, h2, hsupp, hfind, horder,
            getOrderDetails, hget]

/-- Witness for C4: an unrelated event type produces no provider call, an
ORDER.APPROVED event's trace is exactly the capture attempt's trace, and a
CAPTURE.COMPLETED event is processed with the fetched order. -/
theorem C4_witness :
    (ppProcessWebhookNotification envCompleted
        ⟨some ("BILLING.PLAN.CREATED"), none⟩).2 = [] ∧
    (ppProcessWebhookNotification envApproved exEventOA).2 =
      (capturePayment envApproved exResourceO1.id).2 ∧
    ppProcessWebhookNotification envCompleted exEventCC =
      (.ok ⟨true, none, some exOrderCompleted, orderCustomId exOrderCompleted⟩,
       [.getOrder ("O1")]) :=
  ⟨((C4_webhook_event_dispatch envCompleted ⟨some ("BILLING.PLAN.CREATED"), none⟩).1
      (by decide) (by decide)).1,
   ((C4_webhook_event_dispatch envApproved exEventOA).2.1 exResourceO1 rfl rfl).1,
   (C4_webhook_event_dispatch envCompleted exEventCC).2.2 exResourceCap rfl rfl
     ("O1") (Or.inl rfl) exOrderCompleted rfl⟩
